import Mathlib

/-!
Verification of the connection/transport layer of the instant-epp EPP client.

The definitions below are a shallow embedding of `src/connection.rs`:
  * bytes are `Nat` values (each `< 256` for real wire data),
  * a duplex transport stream is modelled by the explicit `Stream` record
    (bytes the server will send, bytes written so far, how many bytes a
    single `write` call accepts, whether `shutdown` succeeds, and counters
    of read/write calls made on the socket),
  * fallible Rust functions returning `Result<T, Error>` become functions
    returning `Outcome`; a Rust panic/abort (such as the usize underflow in
    `read_epp_response`) is the `Outcome.panicked` value,
  * the asynchronous inbox of the connection actor is modelled by a script
    of wait outcomes (`InboxWait`): either a received work item (or channel
    closure) or an elapsed idle timeout.

Machine integers: `usize`/`u32` arithmetic is `Nat` with explicit bounds;
`usize::try_into::<u32>` failure is checked against `2 ^ 32`, and the
subtraction `buf_size - 4` (which under/overflows in Rust when
`buf_size < 4`) is modelled by an explicit bounds check producing
`Outcome.panicked`.
-/

namespace InstantEpp

/-! ## Bytes and big-endian length headers -/

/-- `u32::to_be_bytes`: the four big-endian bytes of `n` (`n < 2 ^ 32`). -/
def u32ToBeBytes (n : Nat) : List Nat :=
  [n / 16777216 % 256, n / 65536 % 256, n / 256 % 256, n % 256]

/-- `u32::from_be_bytes` on a 4-byte list. -/
def beBytesVal : List Nat → Nat
  | [a, b, c, d] => ((a * 256 + b) * 256 + c) * 256 + d
  | _ => 0

theorem u32ToBeBytes_length (n : Nat) : (u32ToBeBytes n).length = 4 := rfl

theorem beBytesVal_u32ToBeBytes (n : Nat) (h : n < 2 ^ 32) :
    beBytesVal (u32ToBeBytes n) = n := by
  simp only [u32ToBeBytes, beBytesVal]
  have h' : n < 4294967296 := by omega
  omega

/-! ## UTF-8 validity (the check performed by `String::from_utf8`) -/

/-- A UTF-8 continuation byte (`0x80 ..= 0xBF`). -/
def utf8Cont (b : Nat) : Bool :=
  decide (128 ≤ b) && decide (b ≤ 191)

/-- Validity of a byte sequence as UTF-8, mirroring what Rust's
`String::from_utf8` accepts (shortest forms only, no surrogates,
code points up to `U+10FFFF`). -/
def validUtf8 : List Nat → Bool
  | [] => true
  | b :: rest =>
    if b < 128 then validUtf8 rest
    else if b < 194 then false
    else if b < 224 then
      match rest with
      | b1 :: r => utf8Cont b1 && validUtf8 r
      | [] => false
    else if b < 240 then
      match rest with
      | b1 :: b2 :: r =>
        (if b = 224 then decide (160 ≤ b1) && decide (b1 ≤ 191)
         else if b = 237 then decide (128 ≤ b1) && decide (b1 ≤ 159)
         else utf8Cont b1) && utf8Cont b2 && validUtf8 r
      | _ => false
    else if b < 245 then
      match rest with
      | b1 :: b2 :: b3 :: r =>
        (if b = 240 then decide (144 ≤ b1) && decide (b1 ≤ 191)
         else if b = 244 then decide (128 ≤ b1) && decide (b1 ≤ 143)
         else utf8Cont b1) && utf8Cont b2 && utf8Cont b3 && validUtf8 r
      | _ => false
    else false

/-! ## The transport stream model -/

/-- Model of a `Connector::Connection` duplex stream as seen by the
connection actor.  `toRead` holds the bytes the server side will deliver;
`written` accumulates bytes accepted by `write`; `writeCap` bounds how many
bytes a single `write` call accepts (`none` = the whole buffer); a capacity
of `some 0` models a socket that no longer accepts data.  `shutdownOk` is
the result of the graceful `shutdown` call.  `readCalls`/`writeCalls` count
the read/write system calls issued, making "no wire activity" and "exactly
one attempt, no retry" statable. -/
structure Stream where
  toRead : List Nat
  written : List Nat
  writeCap : Option Nat
  shutdownOk : Bool
  readCalls : Nat
  writeCalls : Nat
deriving DecidableEq, Repr

/-- One `AsyncWriteExt::write` call: accepts up to `writeCap` bytes of the
buffer and reports how many were written. -/
def streamWrite (s : Stream) (buf : List Nat) : Stream × Nat :=
  let wrote := match s.writeCap with
    | none => buf.length
    | some c => min c buf.length
  ({ s with written := s.written ++ buf.take wrote,
            writeCalls := s.writeCalls + 1 }, wrote)

/-- `AsyncReadExt::read_exact` on a 4-byte header buffer: yields the four
header bytes, or `none` when the stream ends early. -/
def streamReadExact4 (s : Stream) : Stream × Option (List Nat) :=
  if s.toRead.length < 4 then
    ({ s with readCalls := s.readCalls + 1 }, none)
  else
    ({ s with toRead := s.toRead.drop 4, readCalls := s.readCalls + 1 },
     some (s.toRead.take 4))

/-- One `AsyncReadExt::read` call into a buffer slice of length `cap`:
returns the delivered chunk (empty when the slice is empty or the stream is
exhausted — the two conditions under which `read` returns `0`). -/
def streamRead (s : Stream) (cap : Nat) : Stream × List Nat :=
  let chunk := s.toRead.take (min cap s.toRead.length)
  ({ s with toRead := s.toRead.drop chunk.length,
            readCalls := s.readCalls + 1 }, chunk)

/-! ## Errors and outcomes -/

/-- The `std::io::ErrorKind` values the connection code distinguishes. -/
inductive IoKind
  | unexpectedEof
  | other
deriving DecidableEq, Repr

/-- Modelled from the spec: `src/error.rs` is not under `src/`; this is the
error taxonomy of spec §7 restricted to the variants the connection layer
produces — I/O errors (`Error::Io`), an elapsed request timeout
(`Error::Timeout`), the dedicated reconnect failure (`Error::Reconnect`),
XML serialization failure (`Error::Xml`), invalid UTF-8 payload
(`Error::Utf8`), the `usize -> u32` length overflow (`TryFromIntError`),
and a catch-all. -/
inductive Error
  | io (k : IoKind)
  | Timeout
  | Reconnect
  | Xml
  | Utf8
  | TryFromInt
  | Other
deriving DecidableEq, Repr

/-- Result of running a fallible piece of the Rust code: `ok`/`err` mirror
`Result`, and `panicked` marks executions on which the Rust code panics or
aborts instead of returning. -/
inductive Outcome (α : Type)
  | ok (a : α)
  | err (e : Error)
  | panicked
deriving DecidableEq, Repr

/-! ## Connection state machine and connection record -/

/-- `enum ConnectionState { Opening (default), Open, Closing, Closed }`. -/
inductive ConnectionState
  | Opening
  | Open
  | Closing
  | Closed
deriving DecidableEq, Repr

/-- The result the `Connector` will produce on the next `connect` call
(used by `reconnect`). -/
inductive ConnectResult
  | conn (s : Stream)
  | fail (e : Error)
deriving DecidableEq, Repr

/-- `EppConnection` — the I/O half owning the stream.  `nextConnect`
stands in for the `Connector` collaborator; the Tokio mpsc receiver is
modelled outside the record, by the wait scripts fed to the actor. -/
structure EppConnection where
  registry : String
  stream : Stream
  greeting : List Nat
  timeout : Nat
  idle_timeout : Option Nat
  state : ConnectionState
  nextConnect : ConnectResult
deriving DecidableEq, Repr

/-! ## Framing: write and read one EPP frame -/

/-- The wire frame for `content`: 4-byte big-endian total length
(`content` length + 4) followed by the content bytes. -/
def encodeFrame (content : List Nat) : List Nat :=
  u32ToBeBytes (content.length + 4) ++ content

/-- `EppConnection::write_epp_request`: build the length-prefixed frame and
issue a single `write` call.  A zero-byte write closes the connection and
returns an unexpected-EOF I/O error; the `usize -> u32` conversion of the
total length fails with a `TryFromIntError` when it does not fit. -/
def write_epp_request (conn : EppConnection) (content : List Nat) :
    EppConnection × Outcome Unit :=
  let len := content.length
  if 2 ^ 32 ≤ len + 4 then
    (conn, Outcome.err Error.TryFromInt)
  else
    let buf := encodeFrame content
    let r := streamWrite conn.stream buf
    if r.2 = 0 then
      ({ conn with stream := r.1, state := ConnectionState.Closed },
       Outcome.err (Error.io IoKind.unexpectedEof))
    else
      ({ conn with stream := r.1 }, Outcome.ok ())

/-- The read loop of `EppConnection::read_epp_response`: keep issuing
`read` calls into the remainder of the `messageSize` buffer, accumulating
into `acc`; a `read` returning no bytes is the unexpected-EOF exit
(`none`), and reaching `messageSize` accumulated bytes completes the
frame. -/
def readLoop (s : Stream) (acc : List Nat) (messageSize : Nat) :
    Stream × Option (List Nat) :=
  let r := streamRead s (messageSize - acc.length)
  if r.2.length = 0 then
    (r.1, none)
  else
    let acc1 := acc ++ r.2
    if messageSize ≤ acc1.length then (r.1, some acc1)
    else readLoop r.1 acc1 messageSize
termination_by messageSize - acc.length
decreasing_by
  simp only [acc1, r, streamRead, List.length_take, List.length_append] at *
  omega

/-- `EppConnection::read_epp_response`: read the 4-byte big-endian header,
compute `message_size = buf_size - 4` (in Rust this `usize` subtraction
panics in debug builds and wraps — leading to an aborting huge allocation —
in release builds when `buf_size < 4`; both are `Outcome.panicked` here),
run the read loop, and validate the payload as UTF-8. -/
def read_epp_response (conn : EppConnection) :
    EppConnection × Outcome (List Nat) :=
  match streamReadExact4 conn.stream with
  | (s1, none) =>
    ({ conn with stream := s1 }, Outcome.err (Error.io IoKind.unexpectedEof))
  | (s1, some hdr) =>
    let bufSize := beBytesVal hdr
    if bufSize < 4 then
      ({ conn with stream := s1 }, Outcome.panicked)
    else
      let messageSize := bufSize - 4
      match readLoop s1 [] messageSize with
      | (s2, none) =>
        ({ conn with stream := s2, state := ConnectionState.Closed },
         Outcome.err (Error.io IoKind.unexpectedEof))
      | (s2, some payload) =>
        if validUtf8 payload then
          ({ conn with stream := s2 }, Outcome.ok payload)
        else
          ({ conn with stream := s2 }, Outcome.err Error.Utf8)

/-! ## Shutdown, reconnect, keepalive -/

/-- `EppConnection::wait_for_shutdown`: mark the state `Closing`, call the
transport's graceful `shutdown`, and on success mark the state `Closed`;
`none` is `Ok(())`, `some e` the propagated `io::Error`.  Note the source
leaves the state at `Closing` when `shutdown` fails. -/
def wait_for_shutdown (conn : EppConnection) :
    EppConnection × Option Error :=
  let c1 := { conn with state := ConnectionState.Closing }
  if c1.stream.shutdownOk then
    ({ c1 with state := ConnectionState.Closed }, none)
  else
    (c1, some (Error.io IoKind.other))

/-- `EppConnection::reconnect`: state to `Opening`, obtain a fresh stream
from the connector, read the new greeting, state to `Open`.  Any `?`-exit
leaves the function with the error (and whatever intermediate state was
reached). -/
def reconnect (conn : EppConnection) : EppConnection × Outcome Unit :=
  let c1 := { conn with state := ConnectionState.Opening }
  match c1.nextConnect with
  | ConnectResult.fail e => (c1, Outcome.err e)
  | ConnectResult.conn s =>
    let c2 := { c1 with stream := s }
    match read_epp_response c2 with
    | (c3, Outcome.ok g) =>
      ({ c3 with greeting := g, state := ConnectionState.Open }, Outcome.ok ())
    | (c3, Outcome.err e) => (c3, Outcome.err e)
    | (c3, Outcome.panicked) => (c3, Outcome.panicked)

/-- Modelled from the spec: `src/hello.rs` is not under `src/`.  The spec
describes the keepalive request as "a fixed, parameterless protocol no-op"
serialized like every document: the literal XML header, CRLF, then the
`<epp>` envelope holding `<hello/>`.  These are its (ASCII) bytes. -/
def helloXml : List Nat :=
  (String.toList ("<?xml version=\"1.0\" encoding=\"UTF-8\" standalone=\"no\"?>\r\n<epp xmlns=\"urn:ietf:params:xml:ns:epp-1.0\"><hello/></epp>")).map Char.toNat

/-- `EppConnection::keepalive`: serialize the hello document, write it as a
frame, read the response frame, and store it as the cached greeting. -/
def keepalive (conn : EppConnection) : EppConnection × Outcome Unit :=
  match write_epp_request conn helloXml with
  | (c1, Outcome.ok _) =>
    match read_epp_response c1 with
    | (c2, Outcome.ok g) => ({ c2 with greeting := g }, Outcome.ok ())
    | (c2, Outcome.err e) => (c2, Outcome.err e)
    | (c2, Outcome.panicked) => (c2, Outcome.panicked)
  | (c1, Outcome.err e) => (c1, Outcome.err e)
  | (c1, Outcome.panicked) => (c1, Outcome.panicked)

/-! ## Work items and the actor's inbox -/

/-- `enum RequestMessage`: the three payload kinds of a work item. -/
inductive RequestMessage
  | Greeting
  | Reconnect
  | Request (content : List Nat)
deriving DecidableEq, Repr

/-- `struct Request`: payload plus result channel.  `receiverLive` models
whether the receive half of the per-request result channel still exists
(it is dropped when the caller's future is cancelled); `sender.send` fails
exactly when it is `false`. -/
structure Request where
  request : RequestMessage
  receiverLive : Bool
deriving DecidableEq, Repr

/-- One outcome of awaiting the inbox: either the idle timeout elapsed
first, or `receiver.recv()` resolved (`none` = all senders dropped, the
channel is closed).  A script of these drives the actor. -/
inductive InboxWait
  | elapsed
  | received (r : Option Request)
deriving DecidableEq, Repr

/-- Result of `request_or_keepalive`: the received work item (or channel
closure), a keepalive failure, a keepalive panic, or exhaustion of the wait
script (`stuck` — no real execution corresponds to it). -/
inductive RecvOutcome
  | got (r : Option Request)
  | fail (e : Error)
  | failPanic
  | stuck
deriving DecidableEq, Repr

/-- `EppConnection::request_or_keepalive`: with no idle timeout configured,
just await the next request; with an idle timeout, an elapsed wait triggers
a keepalive round trip and the loop goes back to waiting.  (An `elapsed`
event cannot occur when no idle timeout is armed; the model returns `stuck`
on such ill-formed scripts.) -/
def request_or_keepalive (conn : EppConnection) :
    List InboxWait → EppConnection × List InboxWait × RecvOutcome
  | [] => (conn, [], RecvOutcome.stuck)
  | w :: rest =>
    match conn.idle_timeout with
    | none =>
      match w with
      | InboxWait.received r => (conn, rest, RecvOutcome.got r)
      | InboxWait.elapsed => (conn, rest, RecvOutcome.stuck)
    | some _ =>
      match w with
      | InboxWait.received r => (conn, rest, RecvOutcome.got r)
      | InboxWait.elapsed =>
        match keepalive conn with
        | (c1, Outcome.ok _) => request_or_keepalive c1 rest
        | (c1, Outcome.err e) => (c1, rest, RecvOutcome.fail e)
        | (c1, Outcome.panicked) => (c1, rest, RecvOutcome.failPanic)

/-! ## Dispatching one work item -/

/-- A value delivered (or attempted) on a work item's result channel:
`Result<String, Error>` in the source. -/
inductive Reply
  | ok (s : List Nat)
  | err (e : Error)
deriving DecidableEq, Repr

/-- Outcome of dispatching one work item payload inside
`EppConnection::message`: a response to send on the result channel, an
early return caused by a write failure (no send happens), a reconnect
failure (a dedicated `Error::Reconnect` is sent, then the loop errors
out), or a panic. -/
inductive HandleResult
  | response (r : Reply)
  | writeFailed (e : Error)
  | reconnectFailed (e : Error)
  | panicked
deriving DecidableEq, Repr

/-- The dispatch of `request.request` inside `EppConnection::message`:
a greeting query clones the cached greeting with no wire activity; a raw
request is written and its response read (a write error short-circuits out
of `message` before any send); a reconnect yields the new greeting or the
dedicated failure. -/
def handleRequest (conn : EppConnection) :
    RequestMessage → EppConnection × HandleResult
  | RequestMessage.Greeting =>
    (conn, HandleResult.response (Reply.ok conn.greeting))
  | RequestMessage.Request content =>
    match write_epp_request conn content with
    | (c1, Outcome.ok _) =>
      match read_epp_response c1 with
      | (c2, Outcome.ok resp) => (c2, HandleResult.response (Reply.ok resp))
      | (c2, Outcome.err e) => (c2, HandleResult.response (Reply.err e))
      | (c2, Outcome.panicked) => (c2, HandleResult.panicked)
    | (c1, Outcome.err e) => (c1, HandleResult.writeFailed e)
    | (c1, Outcome.panicked) => (c1, HandleResult.panicked)
  | RequestMessage.Reconnect =>
    match reconnect conn with
    | (c1, Outcome.ok _) => (c1, HandleResult.response (Reply.ok c1.greeting))
    | (c1, Outcome.err e) => (c1, HandleResult.reconnectFailed e)
    | (c1, Outcome.panicked) => (c1, HandleResult.panicked)

/-- A send attempted on a work item's result channel: `delivered` is
whether the receive half was still alive to get `value`. -/
structure SendEvent where
  delivered : Bool
  value : Reply
deriving DecidableEq, Repr

/-- The value `EppConnection::message` resolves with:
`retNone` = `None` (state already `Closed`, or clean shutdown),
`canceledOk` = `Some(Ok("request was canceled. Client dropped."))`,
`fatal e` = `Some(Err(e))`, plus the panic and script-exhaustion
markers of the model. -/
inductive MessageStep
  | retNone
  | canceledOk
  | fatal (e : Error)
  | panicked
  | outOfScript
deriving DecidableEq, Repr

theorem rok_consumes (conn : EppConnection) (script : List InboxWait)
    (h : (request_or_keepalive conn script).2.2 ≠ RecvOutcome.stuck) :
    (request_or_keepalive conn script).2.1.length < script.length := by
  induction script generalizing conn with
  | nil => simp [request_or_keepalive] at h
  | cons w rest ih =>
    simp only [request_or_keepalive] at h ⊢
    cases hidle : conn.idle_timeout with
    | none =>
      cases w <;> simp [hidle] at h ⊢
    | some d =>
      cases w with
      | received r => simp [hidle]
      | elapsed =>
        simp only [hidle] at h ⊢
        rcases hk : keepalive conn with ⟨c1, o⟩
        cases o with
        | ok a =>
          simp only [hk] at h ⊢
          exact Nat.lt_succ_of_lt (ih c1 h)
        | err e => simp [hk]
        | panicked => simp [hk]

/-- `EppConnection::message` — the actor loop body.  It loops: exit with
`None` once the state is `Closed`; wait for a work item (or perform
keepalives); on channel closure perform the graceful shutdown; dispatch
the item; attempt the send on the item's result channel and either
continue the loop (delivered) or resolve with the cancellation notice
(receiver dropped).  Returns the final connection, the unconsumed wait
script, the list of attempted result-channel sends, and the resolution. -/
def message (conn : EppConnection) (script : List InboxWait) :
    EppConnection × List InboxWait × List SendEvent × MessageStep :=
  if conn.state = ConnectionState.Closed then
    (conn, script, [], MessageStep.retNone)
  else
    match hrok : request_or_keepalive conn script with
    | (c1, s1, RecvOutcome.stuck) => (c1, s1, [], MessageStep.outOfScript)
    | (c1, s1, RecvOutcome.fail e) => (c1, s1, [], MessageStep.fatal e)
    | (c1, s1, RecvOutcome.failPanic) => (c1, s1, [], MessageStep.panicked)
    | (c1, s1, RecvOutcome.got none) =>
      match wait_for_shutdown c1 with
      | (c2, none) => (c2, s1, [], MessageStep.retNone)
      | (c2, some e) => (c2, s1, [], MessageStep.fatal e)
    | (c1, s1, RecvOutcome.got (some req)) =>
      match handleRequest c1 req.request with
      | (c2, HandleResult.writeFailed e) => (c2, s1, [], MessageStep.fatal e)
      | (c2, HandleResult.panicked) => (c2, s1, [], MessageStep.panicked)
      | (c2, HandleResult.reconnectFailed e) =>
        (c2, s1, [⟨req.receiverLive, Reply.err Error.Reconnect⟩],
         MessageStep.fatal e)
      | (c2, HandleResult.response r) =>
        if req.receiverLive then
          match message c2 s1 with
          | (c3, s2, sends, step) => (c3, s2, ⟨true, r⟩ :: sends, step)
        else
          (c2, s1, [⟨false, r⟩], MessageStep.canceledOk)
termination_by script.length
decreasing_by
  have h := rok_consumes conn script (by rw [hrok]; simp)
  rw [hrok] at h
  exact h

theorem message_closed {conn : EppConnection} (script : List InboxWait)
    (hC : conn.state = ConnectionState.Closed) :
    message conn script = (conn, script, [], MessageStep.retNone) := by
  rw [message, if_pos hC]

theorem message_rok_fail {conn c1 : EppConnection}
    {script s1 : List InboxWait} {e : Error}
    (hC : conn.state ≠ ConnectionState.Closed)
    (hrok : request_or_keepalive conn script = (c1, s1, RecvOutcome.fail e)) :
    message conn script = (c1, s1, [], MessageStep.fatal e) := by
  rw [message, if_neg hC]
  split <;> rw [hrok] at * <;> simp_all

theorem message_chan_closed {conn c1 : EppConnection}
    {script s1 : List InboxWait}
    (hC : conn.state ≠ ConnectionState.Closed)
    (hrok : request_or_keepalive conn script = (c1, s1, RecvOutcome.got none)) :
    message conn script =
      match wait_for_shutdown c1 with
      | (c2, none) => (c2, s1, [], MessageStep.retNone)
      | (c2, some e) => (c2, s1, [], MessageStep.fatal e) := by
  rw [message, if_neg hC]
  split <;> rw [hrok] at * <;> simp_all

theorem message_item {conn c1 : EppConnection} {script s1 : List InboxWait}
    {req : Request}
    (hC : conn.state ≠ ConnectionState.Closed)
    (hrok : request_or_keepalive conn script =
      (c1, s1, RecvOutcome.got (some req))) :
    message conn script =
      match handleRequest c1 req.request with
      | (c2, HandleResult.writeFailed e) => (c2, s1, [], MessageStep.fatal e)
      | (c2, HandleResult.panicked) => (c2, s1, [], MessageStep.panicked)
      | (c2, HandleResult.reconnectFailed e) =>
        (c2, s1, [⟨req.receiverLive, Reply.err Error.Reconnect⟩],
         MessageStep.fatal e)
      | (c2, HandleResult.response r) =>
        if req.receiverLive then
          ((message c2 s1).1, (message c2 s1).2.1,
           ⟨true, r⟩ :: (message c2 s1).2.2.1, (message c2 s1).2.2.2)
        else
          (c2, s1, [⟨false, r⟩], MessageStep.canceledOk) := by
  rw [message, if_neg hC]
  split <;> rw [hrok] at * <;> simp_all

theorem message_consumes (conn : EppConnection) (script : List InboxWait)
    (h : (message conn script).2.2.2 = MessageStep.canceledOk) :
    (message conn script).2.1.length < script.length := by
  induction conn, script using message.induct with
  | case1 conn script hC => rw [message_closed script hC] at h; simp at h
  | case2 conn script hC c1 s1 hrok =>
    rw [message, if_neg hC] at h
    split at h <;> rw [hrok] at * <;> simp_all
  | case3 conn script hC c1 s1 e hrok =>
    rw [message_rok_fail hC hrok] at h; simp at h
  | case4 conn script hC c1 s1 hrok =>
    rw [message, if_neg hC] at h
    split at h <;> rw [hrok] at * <;> simp_all
  | case5 conn script hC c1 s1 hrok c2 hsd =>
    rw [message_chan_closed hC hrok, hsd] at h; simp at h
  | case6 conn script hC c1 s1 hrok c2 e hsd =>
    rw [message_chan_closed hC hrok, hsd] at h; simp at h
  | case7 conn script hC c1 s1 req hrok c2 e hh =>
    rw [message_item hC hrok, hh] at h; simp at h
  | case8 conn script hC c1 s1 req hrok c2 hh =>
    rw [message_item hC hrok, hh] at h; simp at h
  | case9 conn script hC c1 s1 req hrok c2 e hh =>
    rw [message_item hC hrok, hh] at h; simp at h
  | case10 conn script hC c1 s1 req hrok c2 r hh hlive c3 s2 sends step hm ih =>
    rw [message_item hC hrok, hh] at h ⊢
    simp only [if_pos hlive] at h ⊢
    have hcons := rok_consumes conn script (by rw [hrok]; simp)
    rw [hrok] at hcons
    have hin := ih (by rw [hm] at h ⊢; simpa using h)
    rw [hm] at hin
    rw [hm]
    simp only []
    exact Nat.lt_trans hin hcons
  | case11 conn script hC c1 s1 req hrok c2 r hh hlive =>
    rw [message_item hC hrok, hh] at h ⊢
    simp only [hlive, Bool.false_eq_true, if_false] at h ⊢
    have hcons := rok_consumes conn script (by rw [hrok]; simp)
    rw [hrok] at hcons
    simpa using hcons

/-- How `EppConnection::run` ends.  The Rust `run` always returns
`Ok(())`; a fatal message error is logged with `error!` and breaks the
loop (`errorLogged`), a `None` ends the loop cleanly (`clean`). -/
inductive RunExit
  | clean
  | errorLogged (e : Error)
  | panicked
  | outOfScript
deriving DecidableEq, Repr

/-- `EppConnection::run`: loop on `message`; log and continue on
`Some(Ok(_))`, log the error and break on `Some(Err(_))`, exit the loop on
`None`. -/
def run (conn : EppConnection) (script : List InboxWait) :
    EppConnection × List InboxWait × RunExit :=
  match hm : message conn script with
  | (c1, s1, _, MessageStep.retNone) => (c1, s1, RunExit.clean)
  | (c1, s1, _, MessageStep.fatal e) => (c1, s1, RunExit.errorLogged e)
  | (c1, s1, _, MessageStep.panicked) => (c1, s1, RunExit.panicked)
  | (c1, s1, _, MessageStep.outOfScript) => (c1, s1, RunExit.outOfScript)
  | (c1, s1, _, MessageStep.canceledOk) => run c1 s1
termination_by script.length
decreasing_by
  have h := message_consumes conn script (by rw [hm])
  rw [hm] at h
  exact h

theorem run_canceled {conn c1 : EppConnection} {script s1 : List InboxWait}
    {sends : List SendEvent}
    (hm : message conn script = (c1, s1, sends, MessageStep.canceledOk)) :
    run conn script = run c1 s1 := by
  rw [run]
  split <;> rw [hm] at * <;> simp_all

theorem run_fatal {conn c1 : EppConnection} {script s1 : List InboxWait}
    {sends : List SendEvent} {e : Error}
    (hm : message conn script = (c1, s1, sends, MessageStep.fatal e)) :
    run conn script = (c1, s1, RunExit.errorLogged e) := by
  rw [run]
  split <;> rw [hm] at * <;> simp_all

theorem run_none {conn c1 : EppConnection} {script s1 : List InboxWait}
    {sends : List SendEvent}
    (hm : message conn script = (c1, s1, sends, MessageStep.retNone)) :
    run conn script = (c1, s1, RunExit.clean) := by
  rw [run]
  split <;> rw [hm] at * <;> simp_all

/-- `EppConnection::new`: build the record (state defaulted to `Opening`,
empty greeting) over the stream the connector produced, read the first
frame as the greeting, and mark the connection `Open`.  `stream0` is the
stream `connector.connect(request_timeout)` returned; a connect failure
happens before this code runs and is out of scope of the record. -/
def EppConnection.new (registry : String) (stream0 : Stream)
    (request_timeout : Nat) (idle_timeout : Option Nat)
    (nextConnect : ConnectResult) : Outcome EppConnection :=
  let this : EppConnection :=
    { registry := registry, stream := stream0, greeting := [],
      timeout := request_timeout, idle_timeout := idle_timeout,
      state := ConnectionState.Opening, nextConnect := nextConnect }
  match read_epp_response this with
  | (c1, Outcome.ok g) =>
    Outcome.ok { c1 with greeting := g, state := ConnectionState.Open }
  | (_, Outcome.err e) => Outcome.err e
  | (_, Outcome.panicked) => Outcome.panicked

/-! ## Equation lemmas for the framing codec -/

theorem encodeFrame_append (payload rest : List Nat) :
    encodeFrame payload ++ rest
      = u32ToBeBytes (payload.length + 4) ++ (payload ++ rest) := by
  simp [encodeFrame]

theorem streamWrite_all (s : Stream) (buf : List Nat)
    (h : s.writeCap = none) :
    streamWrite s buf =
      ({ s with written := s.written ++ buf,
                writeCalls := s.writeCalls + 1 }, buf.length) := by
  simp [streamWrite, h]

theorem streamWrite_zero (s : Stream) (buf : List Nat)
    (h : s.writeCap = some 0) :
    streamWrite s buf = ({ s with writeCalls := s.writeCalls + 1 }, 0) := by
  simp [streamWrite, h]

theorem write_epp_request_ok (conn : EppConnection) (content : List Nat)
    (hcap : conn.stream.writeCap = none)
    (hlen : content.length + 4 < 2 ^ 32) :
    write_epp_request conn content =
      ({ conn with stream :=
          { conn.stream with
              written := conn.stream.written ++ encodeFrame content,
              writeCalls := conn.stream.writeCalls + 1 } },
       Outcome.ok ()) := by
  have hno : ¬ (2 ^ 32 ≤ content.length + 4) := by omega
  have hfl : (encodeFrame content).length = content.length + 4 := by
    simp [encodeFrame, u32ToBeBytes]
  simp only [write_epp_request, if_neg hno, streamWrite_all conn.stream _ hcap]
  rw [if_neg (by omega : ¬ ((encodeFrame content).length = 0))]

theorem write_epp_request_zero (conn : EppConnection) (content : List Nat)
    (hcap : conn.stream.writeCap = some 0)
    (hlen : content.length + 4 < 2 ^ 32) :
    write_epp_request conn content =
      ({ conn with
          stream := { conn.stream with
                        writeCalls := conn.stream.writeCalls + 1 },
          state := ConnectionState.Closed },
       Outcome.err (Error.io IoKind.unexpectedEof)) := by
  have hno : ¬ (2 ^ 32 ≤ content.length + 4) := by omega
  simp only [write_epp_request, if_neg hno,
    streamWrite_zero conn.stream _ hcap]
  simp

theorem streamReadExact4_ok (s : Stream) (hdr tail : List Nat)
    (h4 : hdr.length = 4) (h : s.toRead = hdr ++ tail) :
    streamReadExact4 s =
      ({ s with toRead := tail, readCalls := s.readCalls + 1 },
       some hdr) := by
  have hlen : s.toRead.length = 4 + tail.length := by
    rw [h]; simp [h4]
  simp only [streamReadExact4, hlen]
  rw [if_neg (by omega)]
  rw [h, ← h4, List.take_left, List.drop_left]

theorem streamRead_all (s : Stream) (payload rest : List Nat)
    (h : s.toRead = payload ++ rest) :
    streamRead s payload.length =
      ({ s with toRead := rest, readCalls := s.readCalls + 1 },
       payload) := by
  have hmin : min payload.length s.toRead.length = payload.length := by
    rw [h]; simp [List.length_append]
  simp only [streamRead, hmin]
  rw [h, List.take_left, List.drop_left]

theorem readLoop_exact (s : Stream) (payload rest : List Nat)
    (hne : payload ≠ []) (h : s.toRead = payload ++ rest) :
    readLoop s [] payload.length =
      ({ s with toRead := rest, readCalls := s.readCalls + 1 },
       some payload) := by
  rw [readLoop]
  simp only [List.length_nil, Nat.sub_zero, streamRead_all s payload rest h]
  rw [if_neg (by simpa using hne)]
  simp

theorem read_epp_response_ok (conn : EppConnection) (payload rest : List Nat)
    (htr : conn.stream.toRead = encodeFrame payload ++ rest)
    (hne : payload ≠ [])
    (hlen : payload.length + 4 < 2 ^ 32)
    (hutf : validUtf8 payload = true) :
    read_epp_response conn =
      ({ conn with stream := { conn.stream with
            toRead := rest,
            readCalls := conn.stream.readCalls + 2 } },
       Outcome.ok payload) := by
  rw [encodeFrame_append] at htr
  have hrt := beBytesVal_u32ToBeBytes (payload.length + 4) hlen
  simp only [read_epp_response,
    streamReadExact4_ok conn.stream (u32ToBeBytes (payload.length + 4))
      (payload ++ rest) (u32ToBeBytes_length _) htr, hrt]
  rw [if_neg (by omega)]
  have hms : payload.length + 4 - 4 = payload.length := by omega
  rw [hms]
  rw [readLoop_exact _ payload rest hne rfl]
  simp [hutf]

theorem readLoop_exhausted (s : Stream) (acc : List Nat) (m : Nat)
    (h : m ≤ acc.length) :
    readLoop s acc m = ({ s with readCalls := s.readCalls + 1 }, none) := by
  rw [readLoop]
  have hcap : m - acc.length = 0 := by omega
  simp [streamRead, hcap]

theorem readLoop_eof (s : Stream) (acc : List Nat) (m : Nat)
    (h : s.toRead.length + acc.length < m) :
    (readLoop s acc m).2 = none := by
  rw [readLoop]
  by_cases hc : s.toRead.length = 0
  · simp [streamRead, hc]
  · have hmin : min (m - acc.length) s.toRead.length = s.toRead.length := by
      omega
    simp only [streamRead, hmin, List.take_length, List.drop_length]
    rw [if_neg (by simpa using hc)]
    rw [if_neg (by simp [List.length_append]; omega)]
    rw [readLoop]
    simp [streamRead]

theorem read_epp_response_eof (conn : EppConnection) (m : Nat)
    (body : List Nat)
    (htr : conn.stream.toRead = u32ToBeBytes (m + 4) ++ body)
    (hshort : body.length < m)
    (hlen : m + 4 < 2 ^ 32) :
    (read_epp_response conn).2 = Outcome.err (Error.io IoKind.unexpectedEof)
      ∧ (read_epp_response conn).1.state = ConnectionState.Closed := by
  have hrt := beBytesVal_u32ToBeBytes (m + 4) hlen
  simp only [read_epp_response,
    streamReadExact4_ok conn.stream (u32ToBeBytes (m + 4)) body
      (u32ToBeBytes_length _) htr, hrt]
  rw [if_neg (by omega)]
  have hms : m + 4 - 4 = m := by omega
  rw [hms]
  rcases hloop : readLoop { conn.stream with toRead := body, readCalls := conn.stream.readCalls + 1 } [] m with ⟨s2, o⟩
  have ho : o = none := by
    have hel := readLoop_eof { conn.stream with toRead := body, readCalls := conn.stream.readCalls + 1 } [] m (by simpa using hshort)
    rw [hloop] at hel
    simpa using hel
  subst ho
  simp [hloop]

theorem read_epp_response_empty_frame (conn : EppConnection)
    (extra : List Nat)
    (htr : conn.stream.toRead = u32ToBeBytes 4 ++ extra) :
    read_epp_response conn =
      ({ conn with
          stream := { conn.stream with
            toRead := extra,
            readCalls := conn.stream.readCalls + 2 },
          state := ConnectionState.Closed },
       Outcome.err (Error.io IoKind.unexpectedEof)) := by
  simp only [read_epp_response,
    streamReadExact4_ok conn.stream (u32ToBeBytes 4) extra
      (u32ToBeBytes_length _) htr]
  have hrt : beBytesVal (u32ToBeBytes 4) = 4 := by decide
  rw [hrt]
  rw [if_neg (by omega)]
  have hms : 4 - 4 = 0 := by omega
  rw [hms]
  rw [readLoop_exhausted _ _ _ (by simp)]

theorem read_epp_response_panic (conn : EppConnection) (v : Nat)
    (extra : List Nat) (hv : v < 4)
    (htr : conn.stream.toRead = u32ToBeBytes v ++ extra) :
    (read_epp_response conn).2 = Outcome.panicked := by
  have hrt := beBytesVal_u32ToBeBytes v (by omega)
  simp only [read_epp_response,
    streamReadExact4_ok conn.stream (u32ToBeBytes v) extra
      (u32ToBeBytes_length _) htr, hrt]
  rw [if_pos (by omega)]

/-! ## Equation lemmas for the actor -/

theorem rok_received (conn : EppConnection) (r : Option Request)
    (tail : List InboxWait) :
    request_or_keepalive conn (InboxWait.received r :: tail)
      = (conn, tail, RecvOutcome.got r) := by
  cases h : conn.idle_timeout <;> simp [request_or_keepalive, h]

theorem keepalive_ok (conn : EppConnection) (g rest : List Nat)
    (hcap : conn.stream.writeCap = none)
    (htr : conn.stream.toRead = encodeFrame g ++ rest)
    (hutf : validUtf8 g = true) (hne : g ≠ [])
    (hlen : g.length + 4 < 2 ^ 32) :
    keepalive conn =
      ({ conn with
          greeting := g,
          stream := { conn.stream with
            toRead := rest,
            written := conn.stream.written ++ encodeFrame helloXml,
            readCalls := conn.stream.readCalls + 2,
            writeCalls := conn.stream.writeCalls + 1 } },
       Outcome.ok ()) := by
  have hhl : helloXml.length + 4 < 2 ^ 32 := by decide
  have hw := write_epp_request_ok conn helloXml hcap hhl
  simp only [keepalive, hw]
  rw [read_epp_response_ok _ g rest (by simpa using htr) hne hlen hutf]

theorem rok_elapsed_ok (conn : EppConnection) (d : Nat)
    (tail : List InboxWait) (c1 : EppConnection)
    (hidle : conn.idle_timeout = some d)
    (hk : keepalive conn = (c1, Outcome.ok ())) :
    request_or_keepalive conn (InboxWait.elapsed :: tail)
      = request_or_keepalive c1 tail := by
  simp [request_or_keepalive, hidle, hk]

theorem message_write_failed (conn : EppConnection) (content : List Nat)
    (live : Bool) (tail : List InboxWait)
    (hC : conn.state ≠ ConnectionState.Closed)
    (hcap : conn.stream.writeCap = some 0)
    (hlen : content.length + 4 < 2 ^ 32) :
    message conn
        (InboxWait.received (some ⟨RequestMessage.Request content, live⟩)
          :: tail)
      = ({ conn with
            stream := { conn.stream with
              writeCalls := conn.stream.writeCalls + 1 },
            state := ConnectionState.Closed },
         tail, [], MessageStep.fatal (Error.io IoKind.unexpectedEof)) := by
  rw [message_item hC (rok_received conn _ tail)]
  have hw := write_epp_request_zero conn content hcap hlen
  simp only [handleRequest, hw]

theorem reconnect_ok (conn : EppConnection) (s1 : Stream)
    (g rest : List Nat)
    (hnc : conn.nextConnect = ConnectResult.conn s1)
    (htr : s1.toRead = encodeFrame g ++ rest)
    (hutf : validUtf8 g = true) (hne : g ≠ [])
    (hlen : g.length + 4 < 2 ^ 32) :
    reconnect conn =
      ({ conn with
          state := ConnectionState.Open,
          greeting := g,
          stream := { s1 with
                        toRead := rest,
                        readCalls := s1.readCalls + 2 } },
       Outcome.ok ()) := by
  obtain ⟨reg, st0, gr, tmo, idl, stt, nc⟩ := conn
  dsimp only at hnc
  subst hnc
  have hr := read_epp_response_ok
    ⟨reg, s1, gr, tmo, idl, ConnectionState.Opening, ConnectResult.conn s1⟩
    g rest (by simpa using htr) hne hlen hutf
  simp only [reconnect]
  rw [hr]

theorem reconnect_fail (conn : EppConnection) (e : Error)
    (hnc : conn.nextConnect = ConnectResult.fail e) :
    reconnect conn =
      ({ conn with state := ConnectionState.Opening }, Outcome.err e) := by
  obtain ⟨reg, st0, gr, tmo, idl, stt, nc⟩ := conn
  dsimp only at hnc
  subst hnc
  simp [reconnect]

/-! ## Concrete fixtures for witnesses and counterexamples -/

/-- A fresh test stream delivering `tr`, accepting writes per `cap`. -/
def mkStream (tr : List Nat) (cap : Option Nat) (sd : Bool) : Stream :=
  { toRead := tr, written := [], writeCap := cap, shutdownOk := sd,
    readCalls := 0, writeCalls := 0 }

/-- A test connection in the given state over the given stream. -/
def mkConn (s : Stream) (idle : Option Nat) (st : ConnectionState)
    (nc : ConnectResult) : EppConnection :=
  { registry := "r", stream := s, greeting := [103], timeout := 1,
    idle_timeout := idle, state := st, nextConnect := nc }

/-! ## The claims -/

/-- C1 (amended: the round trip requires a nonempty payload — see
`C1_counterexample` for the empty string): for every valid-UTF-8 byte
content with `0 < n` and `n + 4 < 2 ^ 32`, the written wire frame is
exactly the 4-byte big-endian `n + 4` header followed by the content, the
write succeeds, and reading that frame back yields the content again. -/
theorem C1_framing_round_trip (content rest : List Nat)
    (conn rconn : EppConnection)
    (hutf : validUtf8 content = true)
    (hne : content ≠ [])
    (hlen : content.length + 4 < 2 ^ 32)
    (hcap : conn.stream.writeCap = none)
    (htr : rconn.stream.toRead = encodeFrame content ++ rest) :
    (encodeFrame content).take 4 = u32ToBeBytes (content.length + 4)
    ∧ (write_epp_request conn content).2 = Outcome.ok ()
    ∧ (write_epp_request conn content).1.stream.written
        = conn.stream.written ++ encodeFrame content
    ∧ (read_epp_response rconn).2 = Outcome.ok content := by
  refine ⟨?_, ?_, ?_, ?_⟩
  · rw [encodeFrame, List.take_left' (u32ToBeBytes_length _)]
  · rw [write_epp_request_ok conn content hcap hlen]
  · rw [write_epp_request_ok conn content hcap hlen]
  · rw [read_epp_response_ok rconn content rest htr hne hlen hutf]

theorem C1_witness :
    validUtf8 [60, 97, 62] = true
    ∧ ([60, 97, 62] : List Nat) ≠ []
    ∧ ([60, 97, 62] : List Nat).length + 4 < 2 ^ 32
    ∧ (mkConn (mkStream [] none true) none ConnectionState.Open
        (ConnectResult.fail Error.Other)).stream.writeCap = none
    ∧ (mkConn (mkStream (encodeFrame [60, 97, 62] ++ []) none true) none
        ConnectionState.Open
        (ConnectResult.fail Error.Other)).stream.toRead
        = encodeFrame [60, 97, 62] ++ []
    ∧ ((encodeFrame [60, 97, 62]).take 4
        = u32ToBeBytes (([60, 97, 62] : List Nat).length + 4)
      ∧ (write_epp_request
          (mkConn (mkStream [] none true) none ConnectionState.Open
            (ConnectResult.fail Error.Other)) [60, 97, 62]).2
          = Outcome.ok ()
      ∧ (write_epp_request
          (mkConn (mkStream [] none true) none ConnectionState.Open
            (ConnectResult.fail Error.Other)) [60, 97, 62]).1.stream.written
          = (mkConn (mkStream [] none true) none ConnectionState.Open
              (ConnectResult.fail Error.Other)).stream.written
            ++ encodeFrame [60, 97, 62]
      ∧ (read_epp_response
          (mkConn (mkStream (encodeFrame [60, 97, 62] ++ []) none true) none
            ConnectionState.Open (ConnectResult.fail Error.Other))).2
          = Outcome.ok [60, 97, 62]) :=
  ⟨by decide, by decide, by decide, by decide, by decide,
   C1_framing_round_trip [60, 97, 62] [] _ _ (by decide) (by decide)
     (by decide) (by decide) (by decide)⟩

/-- C1 fails as stated at the empty string: the encoded frame of `""` is
`[0, 0, 0, 4]`, and decoding it does not yield `""` — the zero-length
payload read returns 0 bytes, which the reader treats as an unexpected
EOF. -/
theorem C1_counterexample :
    (write_epp_request (mkConn (mkStream [] none true) none
        ConnectionState.Open (ConnectResult.fail Error.Other))
        []).1.stream.written = [0, 0, 0, 4]
    ∧ (read_epp_response (mkConn (mkStream [0, 0, 0, 4] none true) none
        ConnectionState.Open (ConnectResult.fail Error.Other))).2
        ≠ Outcome.ok []
    ∧ (read_epp_response (mkConn (mkStream [0, 0, 0, 4] none true) none
        ConnectionState.Open (ConnectResult.fail Error.Other))).2
        = Outcome.err (Error.io IoKind.unexpectedEof) := by
  have h := read_epp_response_empty_frame
    (mkConn (mkStream [0, 0, 0, 4] none true) none ConnectionState.Open
      (ConnectResult.fail Error.Other)) [] (by decide)
  refine ⟨by decide, ?_, ?_⟩ <;> rw [h] <;> decide

/-- C3: the code does not return a structured framing error for a length
header below 4 — evaluating `read_epp_response` on a frame whose 4-byte
big-endian header is 0 ends in the panic marker: the `usize` subtraction
`buf_size - 4` underflows (debug builds panic; release builds wrap and the
following `vec![0; message_size]` aborts). -/
theorem C3_short_header_panics :
    (read_epp_response (mkConn (mkStream [0, 0, 0, 0] none true) none
        ConnectionState.Open (ConnectResult.fail Error.Other))).2
      = Outcome.panicked :=
  read_epp_response_panic _ 0 [] (by decide) (by decide)

/-- C5 (amended: only a ZERO write is detected — a short nonzero write is
accepted as success, see `C5_counterexample`): a zero-byte write of a
request frame returns the unexpected-EOF transport error with the state
set directly to `Closed` after exactly one write attempt (no retry), and a
response read observing a 0-byte read while more bytes are expected
returns the unexpected-EOF transport error with the state set directly to
`Closed`. -/
theorem C5_io_failures_close (conn rconn : EppConnection)
    (content body : List Nat) (m : Nat)
    (hcap : conn.stream.writeCap = some 0)
    (hlen : content.length + 4 < 2 ^ 32)
    (htr : rconn.stream.toRead = u32ToBeBytes (m + 4) ++ body)
    (hshort : body.length < m)
    (hm : m + 4 < 2 ^ 32) :
    (write_epp_request conn content).2
        = Outcome.err (Error.io IoKind.unexpectedEof)
    ∧ (write_epp_request conn content).1.state = ConnectionState.Closed
    ∧ (write_epp_request conn content).1.stream.writeCalls
        = conn.stream.writeCalls + 1
    ∧ (read_epp_response rconn).2
        = Outcome.err (Error.io IoKind.unexpectedEof)
    ∧ (read_epp_response rconn).1.state = ConnectionState.Closed := by
  have hw := write_epp_request_zero conn content hcap hlen
  have hr := read_epp_response_eof rconn m body htr hshort hm
  exact ⟨by rw [hw], by rw [hw], by rw [hw], hr.1, hr.2⟩

theorem C5_witness :
    (mkConn (mkStream [] (some 0) true) none ConnectionState.Open
        (ConnectResult.fail Error.Other)).stream.writeCap = some 0
    ∧ ([97] : List Nat).length + 4 < 2 ^ 32
    ∧ (mkConn (mkStream (u32ToBeBytes (2 + 4) ++ [104]) none true) none
        ConnectionState.Open (ConnectResult.fail Error.Other)).stream.toRead
        = u32ToBeBytes (2 + 4) ++ [104]
    ∧ ([104] : List Nat).length < 2
    ∧ 2 + 4 < 2 ^ 32
    ∧ ((write_epp_request (mkConn (mkStream [] (some 0) true) none
          ConnectionState.Open (ConnectResult.fail Error.Other)) [97]).2
        = Outcome.err (Error.io IoKind.unexpectedEof)
      ∧ (write_epp_request (mkConn (mkStream [] (some 0) true) none
          ConnectionState.Open (ConnectResult.fail Error.Other)) [97]).1.state
        = ConnectionState.Closed
      ∧ (write_epp_request (mkConn (mkStream [] (some 0) true) none
          ConnectionState.Open (ConnectResult.fail Error.Other))
            [97]).1.stream.writeCalls
        = (mkConn (mkStream [] (some 0) true) none ConnectionState.Open
            (ConnectResult.fail Error.Other)).stream.writeCalls + 1
      ∧ (read_epp_response (mkConn
            (mkStream (u32ToBeBytes (2 + 4) ++ [104]) none true) none
            ConnectionState.Open (ConnectResult.fail Error.Other))).2
        = Outcome.err (Error.io IoKind.unexpectedEof)
      ∧ (read_epp_response (mkConn
            (mkStream (u32ToBeBytes (2 + 4) ++ [104]) none true) none
            ConnectionState.Open (ConnectResult.fail Error.Other))).1.state
        = ConnectionState.Closed) :=
  ⟨by decide, by decide, by decide, by decide, by decide,
   C5_io_failures_close _ _ [97] [104] 2 (by decide) (by decide) (by decide)
     (by decide) (by decide)⟩

/-- C5 fails as stated for SHORT writes: a write call that accepts only 3
of the 5 frame bytes (fewer bytes than the full frame, but not zero) is
treated as a success — `write_epp_request` returns `Ok(())` and leaves the
state `Open`, where the claim requires a transport error and state
`Closed`. -/
theorem C5_counterexample :
    (write_epp_request (mkConn (mkStream [] (some 3) true) none
        ConnectionState.Open (ConnectResult.fail Error.Other)) [97]).2
      = Outcome.ok ()
    ∧ (write_epp_request (mkConn (mkStream [] (some 3) true) none
        ConnectionState.Open (ConnectResult.fail Error.Other)) [97]).1.state
      = ConnectionState.Open
    ∧ (write_epp_request (mkConn (mkStream [] (some 3) true) none
        ConnectionState.Open (ConnectResult.fail Error.Other))
          [97]).1.stream.written
      = [0, 0, 0] := by
  decide

/-- C10: a well-formed frame whose 4-byte big-endian header is exactly 4
(empty payload) is never returned as the empty string: the first read into
the zero-length buffer returns 0 bytes, which the reader treats as an
unexpected end-of-stream, so the state becomes `Closed` and the
unexpected-EOF error is returned. -/
theorem C10_empty_payload_is_eof (conn : EppConnection) (extra : List Nat)
    (htr : conn.stream.toRead = u32ToBeBytes 4 ++ extra) :
    (read_epp_response conn).2 = Outcome.err (Error.io IoKind.unexpectedEof)
    ∧ (read_epp_response conn).1.state = ConnectionState.Closed
    ∧ (read_epp_response conn).2 ≠ Outcome.ok [] := by
  rw [read_epp_response_empty_frame conn extra htr]
  refine ⟨rfl, rfl, by simp⟩

theorem C10_witness :
    (mkConn (mkStream [0, 0, 0, 4] none true) none ConnectionState.Open
        (ConnectResult.fail Error.Other)).stream.toRead
      = u32ToBeBytes 4 ++ []
    ∧ ((read_epp_response (mkConn (mkStream [0, 0, 0, 4] none true) none
          ConnectionState.Open (ConnectResult.fail Error.Other))).2
        = Outcome.err (Error.io IoKind.unexpectedEof)
      ∧ (read_epp_response (mkConn (mkStream [0, 0, 0, 4] none true) none
          ConnectionState.Open (ConnectResult.fail Error.Other))).1.state
        = ConnectionState.Closed
      ∧ (read_epp_response (mkConn (mkStream [0, 0, 0, 4] none true) none
          ConnectionState.Open (ConnectResult.fail Error.Other))).2
        ≠ Outcome.ok []) :=
  ⟨by decide, C10_empty_payload_is_eof _ [] (by decide)⟩

/-- C4 (amended: on a FAILED close the state stays `Closing`, not
`Closed` — see `C4_counterexample`): graceful shutdown sets the state to
`Closing` and then, when the transport close succeeds, to `Closed`; when
the close fails the state remains `Closing` and the failure still
surfaces — it becomes the fatal result of the actor's `message` step, so
the run loop logs it and terminates. -/
theorem C4_shutdown_transitions (conn : EppConnection)
    (tail : List InboxWait) :
    (conn.stream.shutdownOk = true →
      wait_for_shutdown conn
        = ({ conn with state := ConnectionState.Closed }, none))
    ∧ (conn.stream.shutdownOk = false →
      (wait_for_shutdown conn).1.state = ConnectionState.Closing
      ∧ (wait_for_shutdown conn).2 = some (Error.io IoKind.other))
    ∧ (conn.state ≠ ConnectionState.Closed →
      conn.stream.shutdownOk = false →
      (message conn (InboxWait.received none :: tail)).2.2.2
        = MessageStep.fatal (Error.io IoKind.other)
      ∧ (run conn (InboxWait.received none :: tail)).2.2
        = RunExit.errorLogged (Error.io IoKind.other)) := by
  refine ⟨?_, ?_, ?_⟩
  · intro h
    simp [wait_for_shutdown, h]
  · intro h
    simp [wait_for_shutdown, h]
  · intro hC h
    have hm := message_chan_closed hC (rok_received conn none tail)
    rw [show wait_for_shutdown conn
        = ({ conn with state := ConnectionState.Closing },
           some (Error.io IoKind.other)) by simp [wait_for_shutdown, h]] at hm
    have hm2 : message conn (InboxWait.received none :: tail)
        = ({ conn with state := ConnectionState.Closing }, tail, [],
           MessageStep.fatal (Error.io IoKind.other)) := by rw [hm]
    exact ⟨by rw [hm2], by rw [run_fatal hm2]⟩

theorem C4_witness :
    (mkConn (mkStream [] none true) none ConnectionState.Open
        (ConnectResult.fail Error.Other)).stream.shutdownOk = true
    ∧ (mkConn (mkStream [] none false) none ConnectionState.Open
        (ConnectResult.fail Error.Other)).stream.shutdownOk = false
    ∧ (mkConn (mkStream [] none false) none ConnectionState.Open
        (ConnectResult.fail Error.Other)).state ≠ ConnectionState.Closed
    ∧ (wait_for_shutdown (mkConn (mkStream [] none true) none
          ConnectionState.Open (ConnectResult.fail Error.Other))
        = ({ mkConn (mkStream [] none true) none ConnectionState.Open
              (ConnectResult.fail Error.Other)
             with state := ConnectionState.Closed }, none))
    ∧ ((wait_for_shutdown (mkConn (mkStream [] none false) none
          ConnectionState.Open (ConnectResult.fail Error.Other))).1.state
        = ConnectionState.Closing
      ∧ (wait_for_shutdown (mkConn (mkStream [] none false) none
          ConnectionState.Open (ConnectResult.fail Error.Other))).2
        = some (Error.io IoKind.other))
    ∧ ((message (mkConn (mkStream [] none false) none ConnectionState.Open
            (ConnectResult.fail Error.Other))
          (InboxWait.received none :: [])).2.2.2
        = MessageStep.fatal (Error.io IoKind.other)
      ∧ (run (mkConn (mkStream [] none false) none ConnectionState.Open
            (ConnectResult.fail Error.Other))
          (InboxWait.received none :: [])).2.2
        = RunExit.errorLogged (Error.io IoKind.other)) :=
  ⟨by decide, by decide, by decide,
   (C4_shutdown_transitions _ []).1 (by decide),
   (C4_shutdown_transitions _ []).2.1 (by decide),
   (C4_shutdown_transitions _ []).2.2 (by decide) (by decide)⟩

/-- C4 fails as stated when the transport close fails: the state remains
`Closing` — it does not become `Closed`. -/
theorem C4_counterexample :
    (wait_for_shutdown (mkConn (mkStream [] none false) none
        ConnectionState.Open (ConnectResult.fail Error.Other))).2
      = some (Error.io IoKind.other)
    ∧ (wait_for_shutdown (mkConn (mkStream [] none false) none
        ConnectionState.Open (ConnectResult.fail Error.Other))).1.state
      ≠ ConnectionState.Closed := by
  decide

/-- C7: processing a Reconnect work item moves the state to `Opening`,
obtains the fresh stream from the connector and reads the new greeting,
ending `Open` with the new greeting cached; when the connector fails, the
requester's result channel gets the dedicated `Error::Reconnect` value and
the actor's `message` step resolves fatally, terminating the run loop. -/
theorem C7_reconnect_semantics (conn c1 : EppConnection) (s1 : Stream)
    (g rest : List Nat) (e : Error) (live : Bool) (tail : List InboxWait) :
    (conn.nextConnect = ConnectResult.conn s1 →
      s1.toRead = encodeFrame g ++ rest →
      validUtf8 g = true → g ≠ [] → g.length + 4 < 2 ^ 32 →
      (reconnect conn).2 = Outcome.ok ()
      ∧ (reconnect conn).1.state = ConnectionState.Open
      ∧ (reconnect conn).1.greeting = g
      ∧ (reconnect conn).1.stream.toRead = rest
      ∧ (reconnect conn).1.stream.written = s1.written)
    ∧ (reconnect conn = (c1, Outcome.err e) →
      conn.state ≠ ConnectionState.Closed →
      message conn
          (InboxWait.received (some ⟨RequestMessage.Reconnect, live⟩) :: tail)
        = (c1, tail,
           [⟨live, Reply.err Error.Reconnect⟩], MessageStep.fatal e)
      ∧ (run conn
          (InboxWait.received (some ⟨RequestMessage.Reconnect, live⟩)
            :: tail)).2.2
        = RunExit.errorLogged e)
    ∧ (conn.nextConnect = ConnectResult.fail e →
      (reconnect conn).1.state = ConnectionState.Opening
      ∧ (reconnect conn).2 = Outcome.err e) := by
  refine ⟨?_, ?_, ?_⟩
  · intro hnc htr hutf hne hlen
    rw [reconnect_ok conn s1 g rest hnc htr hutf hne hlen]
    exact ⟨rfl, rfl, rfl, rfl, rfl⟩
  · intro hrec hC
    have hh : handleRequest conn RequestMessage.Reconnect
        = (c1, HandleResult.reconnectFailed e) := by
      simp only [handleRequest, hrec]
    have hm := message_item hC
      (rok_received conn (some ⟨RequestMessage.Reconnect, live⟩) tail)
    rw [hh] at hm
    have hm2 : message conn
        (InboxWait.received (some ⟨RequestMessage.Reconnect, live⟩) :: tail)
        = (c1, tail,
           [⟨live, Reply.err Error.Reconnect⟩], MessageStep.fatal e) := by
      rw [hm]
    exact ⟨hm2, by rw [run_fatal hm2]⟩
  · intro hnc
    rw [reconnect_fail conn e hnc]
    exact ⟨rfl, rfl⟩

/-- Fixture for the C7 witness success half: an open connection whose
connector will produce a stream delivering the greeting frame for
`[103]`. -/
def c7Ok : EppConnection :=
  mkConn (mkStream [] none true) none ConnectionState.Open
    (ConnectResult.conn (mkStream (encodeFrame [103] ++ []) none true))

/-- Fixture for the C7 witness failure half: an open connection whose
connector will fail with a timeout. -/
def c7Fail : EppConnection :=
  mkConn (mkStream [] none true) none ConnectionState.Open
    (ConnectResult.fail Error.Timeout)

theorem C7_witness :
    c7Ok.nextConnect
      = ConnectResult.conn (mkStream (encodeFrame [103] ++ []) none true)
    ∧ (mkStream (encodeFrame [103] ++ []) none true).toRead
      = encodeFrame [103] ++ []
    ∧ validUtf8 [103] = true
    ∧ ([103] : List Nat) ≠ []
    ∧ ([103] : List Nat).length + 4 < 2 ^ 32
    ∧ reconnect c7Fail
      = ({ c7Fail with state := ConnectionState.Opening },
         Outcome.err Error.Timeout)
    ∧ c7Fail.state ≠ ConnectionState.Closed
    ∧ c7Fail.nextConnect = ConnectResult.fail Error.Timeout
    ∧ ((reconnect c7Ok).2 = Outcome.ok ()
      ∧ (reconnect c7Ok).1.state = ConnectionState.Open
      ∧ (reconnect c7Ok).1.greeting = [103]
      ∧ (reconnect c7Ok).1.stream.toRead = []
      ∧ (reconnect c7Ok).1.stream.written
        = (mkStream (encodeFrame [103] ++ []) none true).written)
    ∧ (message c7Fail
          (InboxWait.received (some ⟨RequestMessage.Reconnect, true⟩) :: [])
        = ({ c7Fail with state := ConnectionState.Opening }, [],
           [⟨true, Reply.err Error.Reconnect⟩],
           MessageStep.fatal Error.Timeout)
      ∧ (run c7Fail
          (InboxWait.received (some ⟨RequestMessage.Reconnect, true⟩)
            :: [])).2.2
        = RunExit.errorLogged Error.Timeout)
    ∧ ((reconnect c7Fail).1.state = ConnectionState.Opening
      ∧ (reconnect c7Fail).2 = Outcome.err Error.Timeout) :=
  ⟨by decide, by decide, by decide, by decide, by decide, by decide,
   by decide, by decide,
   (C7_reconnect_semantics c7Ok ({ c7Fail with
        state := ConnectionState.Opening }) (mkStream (encodeFrame [103]
        ++ []) none true) [103] [] Error.Timeout true []).1 (by decide)
     (by decide) (by decide) (by decide) (by decide),
   (C7_reconnect_semantics c7Fail ({ c7Fail with
        state := ConnectionState.Opening }) (mkStream [] none true) [103]
        [] Error.Timeout true []).2.1 (by decide) (by decide),
   (C7_reconnect_semantics c7Fail ({ c7Fail with
        state := ConnectionState.Opening }) (mkStream [] none true) [103]
        [] Error.Timeout true []).2.2 (by decide)⟩

/-- C9: dispatching a Greeting work item touches neither the stream nor
any field of the connection — the continuation of the actor loop runs on
the connection exactly as it was — and the delivered result is the cached
greeting; after a successful connect, that cached greeting is exactly the
payload of the first frame decoded from the stream. -/
theorem C9_greeting_is_cached (conn : EppConnection) (tail : List InboxWait)
    (registry : String) (s0 : Stream) (tmo : Nat) (idle : Option Nat)
    (nc : ConnectResult) (g rest : List Nat) :
    handleRequest conn RequestMessage.Greeting
      = (conn, HandleResult.response (Reply.ok conn.greeting))
    ∧ (conn.state ≠ ConnectionState.Closed →
        message conn
            (InboxWait.received (some ⟨RequestMessage.Greeting, true⟩) :: tail)
          = ((message conn tail).1, (message conn tail).2.1,
             ⟨true, Reply.ok conn.greeting⟩ :: (message conn tail).2.2.1,
             (message conn tail).2.2.2))
    ∧ (s0.toRead = encodeFrame g ++ rest → validUtf8 g = true → g ≠ [] →
        g.length + 4 < 2 ^ 32 →
        EppConnection.new registry s0 tmo idle nc
          = Outcome.ok
              { registry := registry,
                stream := { s0 with
                              toRead := rest,
                              readCalls := s0.readCalls + 2 },
                greeting := g, timeout := tmo, idle_timeout := idle,
                state := ConnectionState.Open, nextConnect := nc }) := by
  refine ⟨rfl, ?_, ?_⟩
  · intro hC
    have hm := message_item hC
      (rok_received conn (some ⟨RequestMessage.Greeting, true⟩) tail)
    rw [hm]
    rfl
  · intro htr hutf hne hlen
    have hr := read_epp_response_ok
      ⟨registry, s0, [], tmo, idle, ConnectionState.Opening, nc⟩
      g rest (by simpa using htr) hne hlen hutf
    simp only [EppConnection.new]
    rw [hr]

theorem C9_witness :
    (mkConn (mkStream [] none true) none ConnectionState.Open
        (ConnectResult.fail Error.Other)).state ≠ ConnectionState.Closed
    ∧ (mkStream (encodeFrame [103, 104] ++ [7]) none true).toRead
        = encodeFrame [103, 104] ++ [7]
    ∧ validUtf8 [103, 104] = true
    ∧ ([103, 104] : List Nat) ≠ []
    ∧ ([103, 104] : List Nat).length + 4 < 2 ^ 32
    ∧ handleRequest (mkConn (mkStream [] none true) none
          ConnectionState.Open (ConnectResult.fail Error.Other))
          RequestMessage.Greeting
        = (mkConn (mkStream [] none true) none ConnectionState.Open
            (ConnectResult.fail Error.Other),
           HandleResult.response (Reply.ok
             (mkConn (mkStream [] none true) none ConnectionState.Open
               (ConnectResult.fail Error.Other)).greeting))
    ∧ (message (mkConn (mkStream [] none true) none ConnectionState.Open
          (ConnectResult.fail Error.Other))
          (InboxWait.received (some ⟨RequestMessage.Greeting, true⟩) :: [])
        = ((message (mkConn (mkStream [] none true) none ConnectionState.Open
              (ConnectResult.fail Error.Other)) []).1,
           (message (mkConn (mkStream [] none true) none ConnectionState.Open
              (ConnectResult.fail Error.Other)) []).2.1,
           ⟨true, Reply.ok (mkConn (mkStream [] none true) none
              ConnectionState.Open
              (ConnectResult.fail Error.Other)).greeting⟩
             :: (message (mkConn (mkStream [] none true) none
                  ConnectionState.Open
                  (ConnectResult.fail Error.Other)) []).2.2.1,
           (message (mkConn (mkStream [] none true) none ConnectionState.Open
              (ConnectResult.fail Error.Other)) []).2.2.2))
    ∧ EppConnection.new "w" (mkStream (encodeFrame [103, 104] ++ [7]) none
          true) 1 none (ConnectResult.fail Error.Other)
        = Outcome.ok
            { registry := "w",
              stream := { mkStream (encodeFrame [103, 104] ++ [7]) none true
                          with
                            toRead := [7],
                            readCalls := (mkStream (encodeFrame [103, 104]
                              ++ [7]) none true).readCalls + 2 },
              greeting := [103, 104], timeout := 1, idle_timeout := none,
              state := ConnectionState.Open,
              nextConnect := ConnectResult.fail Error.Other } :=
  ⟨by decide, by decide, by decide, by decide, by decide,
   (C9_greeting_is_cached (mkConn (mkStream [] none true) none
      ConnectionState.Open (ConnectResult.fail Error.Other)) [] "w"
      (mkStream (encodeFrame [103, 104] ++ [7]) none true) 1 none
      (ConnectResult.fail Error.Other) [103, 104] [7]).1,
   (C9_greeting_is_cached (mkConn (mkStream [] none true) none
      ConnectionState.Open (ConnectResult.fail Error.Other)) [] "w"
      (mkStream (encodeFrame [103, 104] ++ [7]) none true) 1 none
      (ConnectResult.fail Error.Other) [103, 104] [7]).2.1 (by decide),
   (C9_greeting_is_cached (mkConn (mkStream [] none true) none
      ConnectionState.Open (ConnectResult.fail Error.Other)) [] "w"
      (mkStream (encodeFrame [103, 104] ++ [7]) none true) 1 none
      (ConnectResult.fail Error.Other) [103, 104] [7]).2.2 (by decide)
      (by decide) (by decide) (by decide)⟩

/-- C2: a raw-request work item whose result-channel receiver was dropped
(the caller's future was cancelled) is still driven through the full wire
exchange — the whole request frame is written and the whole response frame
is consumed — after which the actor resolves with the cancellation notice
`Some(Ok(..))`, not an error, and the run loop goes on with the remaining
work items on the very connection that completed the exchange. -/
theorem C2_cancelled_request_still_completes (conn : EppConnection)
    (content resp rest : List Nat) (tail : List InboxWait)
    (hst : conn.state = ConnectionState.Open)
    (hcap : conn.stream.writeCap = none)
    (htr : conn.stream.toRead = encodeFrame resp ++ rest)
    (hutf : validUtf8 resp = true) (hne : resp ≠ [])
    (hrlen : resp.length + 4 < 2 ^ 32)
    (hwlen : content.length + 4 < 2 ^ 32) :
    message conn
        (InboxWait.received (some ⟨RequestMessage.Request content, false⟩)
          :: tail)
      = ({ conn with stream := { conn.stream with
              toRead := rest,
              written := conn.stream.written ++ encodeFrame content,
              readCalls := conn.stream.readCalls + 2,
              writeCalls := conn.stream.writeCalls + 1 } },
         tail, [⟨false, Reply.ok resp⟩], MessageStep.canceledOk)
    ∧ run conn
        (InboxWait.received (some ⟨RequestMessage.Request content, false⟩)
          :: tail)
      = run { conn with stream := { conn.stream with
              toRead := rest,
              written := conn.stream.written ++ encodeFrame content,
              readCalls := conn.stream.readCalls + 2,
              writeCalls := conn.stream.writeCalls + 1 } } tail := by
  have hC : conn.state ≠ ConnectionState.Closed := by simp [hst]
  have hw := write_epp_request_ok conn content hcap hwlen
  have hr := read_epp_response_ok
    { conn with stream := { conn.stream with
        written := conn.stream.written ++ encodeFrame content,
        writeCalls := conn.stream.writeCalls + 1 } }
    resp rest (by simpa using htr) hne hrlen hutf
  have hh : handleRequest conn (RequestMessage.Request content)
      = ({ conn with stream := { conn.stream with
              toRead := rest,
              written := conn.stream.written ++ encodeFrame content,
              readCalls := conn.stream.readCalls + 2,
              writeCalls := conn.stream.writeCalls + 1 } },
         HandleResult.response (Reply.ok resp)) := by
    simp only [handleRequest, hw, hr]
  have hm := message_item hC
    (rok_received conn (some ⟨RequestMessage.Request content, false⟩) tail)
  rw [hh] at hm
  have hm2 : message conn
      (InboxWait.received (some ⟨RequestMessage.Request content, false⟩)
        :: tail)
      = ({ conn with stream := { conn.stream with
              toRead := rest,
              written := conn.stream.written ++ encodeFrame content,
              readCalls := conn.stream.readCalls + 2,
              writeCalls := conn.stream.writeCalls + 1 } },
         tail, [⟨false, Reply.ok resp⟩], MessageStep.canceledOk) := by
    rw [hm]
    rfl
  exact ⟨hm2, run_canceled hm2⟩

/-- Fixture for the C2 witness: an open connection whose stream will
deliver the one-byte response frame for `[111]`. -/
def c2Conn : EppConnection :=
  mkConn (mkStream (encodeFrame [111]) none true) none ConnectionState.Open
    (ConnectResult.fail Error.Other)

theorem C2_witness :
    c2Conn.state = ConnectionState.Open
    ∧ c2Conn.stream.writeCap = none
    ∧ c2Conn.stream.toRead = encodeFrame [111] ++ []
    ∧ validUtf8 [111] = true
    ∧ ([111] : List Nat) ≠ []
    ∧ ([111] : List Nat).length + 4 < 2 ^ 32
    ∧ ([97] : List Nat).length + 4 < 2 ^ 32
    ∧ (message c2Conn
          (InboxWait.received (some ⟨RequestMessage.Request [97], false⟩)
            :: [])
        = ({ c2Conn with stream := { c2Conn.stream with
                toRead := [],
                written := c2Conn.stream.written ++ encodeFrame [97],
                readCalls := c2Conn.stream.readCalls + 2,
                writeCalls := c2Conn.stream.writeCalls + 1 } },
           [], [⟨false, Reply.ok [111]⟩], MessageStep.canceledOk)
      ∧ run c2Conn
          (InboxWait.received (some ⟨RequestMessage.Request [97], false⟩)
            :: [])
        = run { c2Conn with stream := { c2Conn.stream with
                toRead := [],
                written := c2Conn.stream.written ++ encodeFrame [97],
                readCalls := c2Conn.stream.readCalls + 2,
                writeCalls := c2Conn.stream.writeCalls + 1 } } []) :=
  ⟨by decide, by decide, by decide, by decide, by decide, by decide,
   by decide,
   C2_cancelled_request_still_completes c2Conn [97] [111] [] [] (by decide)
     (by decide) (by decide) (by decide) (by decide) (by decide)
     (by decide)⟩

/-- C6: with an idle timeout configured, an elapsed wait makes the actor
serialize the hello document, run the normal write/read round trip for it,
store the newly read response as the cached greeting, and go back to
waiting — consuming no work item; with no idle timeout configured, the
actor's wait just resolves with the next work item, with the connection
(and so the wire) untouched and no keepalive ever sent. -/
theorem C6_keepalive_schedule (conn : EppConnection) (r : Option Request)
    (tail : List InboxWait) (d : Nat) (g rest : List Nat) :
    (conn.idle_timeout = none →
      request_or_keepalive conn (InboxWait.received r :: tail)
        = (conn, tail, RecvOutcome.got r))
    ∧ (conn.idle_timeout = some d →
      conn.stream.writeCap = none →
      conn.stream.toRead = encodeFrame g ++ rest →
      validUtf8 g = true → g ≠ [] → g.length + 4 < 2 ^ 32 →
      request_or_keepalive conn (InboxWait.elapsed :: tail)
        = request_or_keepalive
            { conn with
                greeting := g,
                stream := { conn.stream with
                    toRead := rest,
                    written := conn.stream.written ++ encodeFrame helloXml,
                    readCalls := conn.stream.readCalls + 2,
                    writeCalls := conn.stream.writeCalls + 1 } } tail) := by
  constructor
  · intro h
    simp [request_or_keepalive, h]
  · intro hidle hcap htr hutf hne hlen
    exact rok_elapsed_ok conn d tail _ hidle
      (keepalive_ok conn g rest hcap htr hutf hne hlen)

/-- Fixture for the C6 witness: an open connection with a 1-unit idle
timeout whose stream will deliver the one-byte greeting frame
for `[110]`. -/
def c6Conn : EppConnection :=
  mkConn (mkStream (encodeFrame [110]) none true) (some 1)
    ConnectionState.Open (ConnectResult.fail Error.Other)

theorem C6_witness :
    c2Conn.idle_timeout = none
    ∧ c6Conn.idle_timeout = some 1
    ∧ c6Conn.stream.writeCap = none
    ∧ c6Conn.stream.toRead = encodeFrame [110] ++ []
    ∧ validUtf8 [110] = true
    ∧ ([110] : List Nat) ≠ []
    ∧ ([110] : List Nat).length + 4 < 2 ^ 32
    ∧ request_or_keepalive c2Conn (InboxWait.received none :: [])
        = (c2Conn, [], RecvOutcome.got none)
    ∧ request_or_keepalive c6Conn (InboxWait.elapsed :: [])
        = request_or_keepalive
            { c6Conn with
                greeting := [110],
                stream := { c6Conn.stream with
                    toRead := [],
                    written := c6Conn.stream.written ++ encodeFrame helloXml,
                    readCalls := c6Conn.stream.readCalls + 2,
                    writeCalls := c6Conn.stream.writeCalls + 1 } } [] :=
  ⟨by decide, by decide, by decide, by decide, by decide, by decide,
   by decide,
   (C6_keepalive_schedule c2Conn none [] 1 [110] []).1 (by decide),
   (C6_keepalive_schedule c6Conn none [] 1 [110] []).2 (by decide)
     (by decide) (by decide) (by decide) (by decide) (by decide)⟩

/-- C8 (amended: only READ failures are reported on the waiting work
item's result channel; a write failure closes the connection but is
returned as the fatal result of the actor's loop, and the waiting caller's
channel receives nothing — see `C8_counterexample`): a zero-write failure
closes the connection, sends nothing on the result channel, and surfaces
as the run loop's logged fatal error; a read failure (unexpected EOF)
closes the connection and is delivered exactly once, on the waiting work
item's result channel. -/
theorem C8_fatal_reporting (conn rconn : EppConnection)
    (content content2 body : List Nat) (m : Nat) (live : Bool)
    (tail tail2 : List InboxWait) :
    (conn.state ≠ ConnectionState.Closed →
      conn.stream.writeCap = some 0 →
      content.length + 4 < 2 ^ 32 →
      (message conn
          (InboxWait.received (some ⟨RequestMessage.Request content, live⟩)
            :: tail)).2.2.1 = []
      ∧ (message conn
          (InboxWait.received (some ⟨RequestMessage.Request content, live⟩)
            :: tail)).2.2.2
        = MessageStep.fatal (Error.io IoKind.unexpectedEof)
      ∧ (message conn
          (InboxWait.received (some ⟨RequestMessage.Request content, live⟩)
            :: tail)).1.state = ConnectionState.Closed
      ∧ (run conn
          (InboxWait.received (some ⟨RequestMessage.Request content, live⟩)
            :: tail)).2.2
        = RunExit.errorLogged (Error.io IoKind.unexpectedEof))
    ∧ (rconn.state ≠ ConnectionState.Closed →
      rconn.stream.writeCap = none →
      rconn.stream.toRead = u32ToBeBytes (m + 4) ++ body →
      body.length < m → m + 4 < 2 ^ 32 →
      content2.length + 4 < 2 ^ 32 →
      (message rconn
          (InboxWait.received (some ⟨RequestMessage.Request content2, true⟩)
            :: tail2)).2.2.1
        = [⟨true, Reply.err (Error.io IoKind.unexpectedEof)⟩]
      ∧ (message rconn
          (InboxWait.received (some ⟨RequestMessage.Request content2, true⟩)
            :: tail2)).2.2.2 = MessageStep.retNone
      ∧ (message rconn
          (InboxWait.received (some ⟨RequestMessage.Request content2, true⟩)
            :: tail2)).1.state = ConnectionState.Closed) := by
  constructor
  · intro hC hcap hlen
    have hmw := message_write_failed conn content live tail hC hcap hlen
    exact ⟨by rw [hmw], by rw [hmw], by rw [hmw],
      by rw [run_fatal hmw]⟩
  · intro hC hcap htr hshort hm4 hlen2
    have hw := write_epp_request_ok rconn content2 hcap hlen2
    rcases hre : read_epp_response { rconn with stream :=
        { rconn.stream with
            written := rconn.stream.written ++ encodeFrame content2,
            writeCalls := rconn.stream.writeCalls + 1 } } with ⟨c2, o⟩
    have he := read_epp_response_eof { rconn with stream :=
        { rconn.stream with
            written := rconn.stream.written ++ encodeFrame content2,
            writeCalls := rconn.stream.writeCalls + 1 } } m body
      (by simpa using htr) hshort hm4
    rw [hre] at he
    have ho : o = Outcome.err (Error.io IoKind.unexpectedEof) := he.1
    have hc2 : c2.state = ConnectionState.Closed := he.2
    subst ho
    have hh : handleRequest rconn (RequestMessage.Request content2)
        = (c2, HandleResult.response
            (Reply.err (Error.io IoKind.unexpectedEof))) := by
      simp only [handleRequest, hw, hre]
    have hm := message_item hC
      (rok_received rconn (some ⟨RequestMessage.Request content2, true⟩)
        tail2)
    rw [hh] at hm
    have hm' : message rconn
        (InboxWait.received (some ⟨RequestMessage.Request content2, true⟩)
          :: tail2)
        = ((message c2 tail2).1, (message c2 tail2).2.1,
           ⟨true, Reply.err (Error.io IoKind.unexpectedEof)⟩
             :: (message c2 tail2).2.2.1,
           (message c2 tail2).2.2.2) := by
      rw [hm]
      rfl
    rw [message_closed tail2 hc2] at hm'
    exact ⟨by rw [hm'], by rw [hm'], by rw [hm']; exact hc2⟩

/-- Fixture for the C8 witnesses: an open connection whose socket no
longer accepts writes. -/
def c8Conn : EppConnection :=
  mkConn (mkStream [] (some 0) true) none ConnectionState.Open
    (ConnectResult.fail Error.Other)

/-- Fixture for the C8 witness read half: an open connection whose stream
announces a 2-byte payload but delivers only 1 byte. -/
def c8rConn : EppConnection :=
  mkConn (mkStream (u32ToBeBytes (2 + 4) ++ [104]) none true) none
    ConnectionState.Open (ConnectResult.fail Error.Other)

theorem C8_witness :
    c8Conn.state ≠ ConnectionState.Closed
    ∧ c8Conn.stream.writeCap = some 0
    ∧ ([97] : List Nat).length + 4 < 2 ^ 32
    ∧ c8rConn.state ≠ ConnectionState.Closed
    ∧ c8rConn.stream.writeCap = none
    ∧ c8rConn.stream.toRead = u32ToBeBytes (2 + 4) ++ [104]
    ∧ ([104] : List Nat).length < 2
    ∧ 2 + 4 < 2 ^ 32
    ∧ ([98] : List Nat).length + 4 < 2 ^ 32
    ∧ ((message c8Conn
          (InboxWait.received (some ⟨RequestMessage.Request [97], true⟩)
            :: [])).2.2.1 = []
      ∧ (message c8Conn
          (InboxWait.received (some ⟨RequestMessage.Request [97], true⟩)
            :: [])).2.2.2
        = MessageStep.fatal (Error.io IoKind.unexpectedEof)
      ∧ (message c8Conn
          (InboxWait.received (some ⟨RequestMessage.Request [97], true⟩)
            :: [])).1.state = ConnectionState.Closed
      ∧ (run c8Conn
          (InboxWait.received (some ⟨RequestMessage.Request [97], true⟩)
            :: [])).2.2
        = RunExit.errorLogged (Error.io IoKind.unexpectedEof))
    ∧ ((message c8rConn
          (InboxWait.received (some ⟨RequestMessage.Request [98], true⟩)
            :: [])).2.2.1
        = [⟨true, Reply.err (Error.io IoKind.unexpectedEof)⟩]
      ∧ (message c8rConn
          (InboxWait.received (some ⟨RequestMessage.Request [98], true⟩)
            :: [])).2.2.2 = MessageStep.retNone
      ∧ (message c8rConn
          (InboxWait.received (some ⟨RequestMessage.Request [98], true⟩)
            :: [])).1.state = ConnectionState.Closed) :=
  ⟨by decide, by decide, by decide, by decide, by decide, by decide,
   by decide, by decide, by decide,
   (C8_fatal_reporting c8Conn c8rConn [97] [98] [104] 2 true [] []).1
     (by decide) (by decide) (by decide),
   (C8_fatal_reporting c8Conn c8rConn [97] [98] [104] 2 true [] []).2
     (by decide) (by decide) (by decide) (by decide) (by decide)
     (by decide)⟩

/-- C8 fails as stated for WRITE failures: on a zero write the waiting
work item's result channel receives nothing (the attempted-send list is
empty) — the failure is reported only as the actor loop's fatal result. -/
theorem C8_counterexample :
    (message c8Conn
        (InboxWait.received (some ⟨RequestMessage.Request [97], true⟩)
          :: [])).2.2.1 = []
    ∧ (message c8Conn
        (InboxWait.received (some ⟨RequestMessage.Request [97], true⟩)
          :: [])).2.2.2
      = MessageStep.fatal (Error.io IoKind.unexpectedEof) := by
  have hmw := message_write_failed c8Conn [97] true [] (by decide)
    (by decide) (by decide)
  exact ⟨by rw [hmw], by rw [hmw]⟩

end InstantEpp
